import Mathlib

/-!
Verification of the annotation-extraction and TeX-segmentation pipelines of the
tex-pdf-corrections repository.  Pipeline A (src/texpdfannots/extract.py) turns raw PDF
annotations into `Edit` records; pipeline B (src/texpdfedits/segmentsource.py) instruments a
TeX source and decodes the resulting box-position log.  Machine reals of the Python source
are modelled as exact rationals; Python exceptions and `sys.exit` aborts are modelled with
`Except String`.
-/

/-- Geometric rectangle, mirroring pymupdf's `Rect` (x0, y0, x1, y1). -/
structure Rect where
  x0 : ℚ
  y0 : ℚ
  x1 : ℚ
  y1 : ℚ
deriving DecidableEq

/-- pymupdf `Rect.width`: absolute horizontal extent. -/
def Rect.width (r : Rect) : ℚ := |r.x1 - r.x0|

/-- pymupdf `Rect.intersects`: the two rectangles share a non-empty rectangle. -/
def Rect.intersects (r s : Rect) : Bool :=
  (max r.x0 s.x0 < min r.x1 s.x1) && (max r.y0 s.y0 < min r.y1 s.y1)

/-- Annotation type tag, mirroring pymupdf's `(number, name)` pairs; the synthesized
`Replace` tag has no number (the source uses `(None, 'Replace')`). -/
structure AnnotType where
  num : Option Int
  name : String
deriving DecidableEq

def PDF_ANNOT_TEXT : AnnotType := ⟨some 0, "Text"⟩

def PDF_ANNOT_STRIKE_OUT : AnnotType := ⟨some 11, "StrikeOut"⟩

def PDF_ANNOT_CARET : AnnotType := ⟨some 14, "Caret"⟩

def ANNOT_REPLACE : AnnotType := ⟨none, "Replace"⟩

def CARET_BUFF : ℚ := 2

def EXTRACT_TEXT_BUFFER_WIDTH : ℚ := 2

/-- The fields of the raw annotation's `info` map that the pipeline reads. -/
structure Info where
  content : String
  creationDate : String
deriving DecidableEq

/-- Raw annotation as exposed by the external PDF library on one page. -/
structure RawAnnot where
  type : AnnotType
  info : Info
  xref : Int
  irt_xref : Int
  rect : Rect

/-- One page of the input document: text-line bounding boxes in reading order, the raw
annotations, and the external `get_textbox` text query. -/
structure Page where
  line_bbs : List Rect
  annots : List RawAnnot
  textbox : Rect → String

/-- Stable annotation (class `Annot` of extract.py): an engine-independent snapshot of a raw
annotation together with the selected intersecting line box. -/
structure Annot where
  pageno : Nat
  type : AnnotType
  info : Info
  xref : Int
  irt_xref : Int
  rect : Rect
  intersecting_line_bb : Option Rect
deriving DecidableEq

structure Message where
  comment : String
  responses : List String
deriving DecidableEq

/-- Edit record (class `Edit` of extract.py). -/
structure Edit where
  pageno : Nat
  type : String
  message : Message
  selection : Option String
deriving DecidableEq

deriving instance DecidableEq for Except

/-- Effectful `map` over `Except`, modelling a Python loop that appends one result per
element and lets exceptions / `sys.exit` abort the whole loop. -/
def exceptMap (f : α → Except String β) : List α → Except String (List β)
  | [] => .ok []
  | a :: l =>
    match f a with
    | .error e => .error e
    | .ok b =>
      match exceptMap f l with
      | .error e => .error e
      | .ok bs => .ok (b :: bs)

/-- Insert a rectangle into a list sorted by ascending `y1`, keeping earlier elements first
among equal keys (Python's `sorted` is stable). -/
def orderedInsertY1 (r : Rect) : List Rect → List Rect
  | [] => [r]
  | s :: l => if r.y1 ≤ s.y1 then r :: s :: l else s :: orderedInsertY1 r l

/-- Stable sort of line boxes by ascending lower edge, modelling
`sorted(intersecting_line_bbs, key = lambda bb : bb[3])`. -/
def sortByY1 : List Rect → List Rect
  | [] => []
  | r :: l => orderedInsertY1 r (sortByY1 l)

/-- Stabilize one raw annotation (the per-annotation body of `getStableAnnots`): Text
annotations are copied with no line box; other annotations select the intersecting line with
the smallest lower edge (IndexError if there is none), and a Caret's rectangle has its
bottom edge moved to that line's lower edge. -/
def stabilizeAnnot (pageno : Nat) (line_bbs : List Rect) (annot : RawAnnot) :
    Except String Annot :=
  let annotRect := annot.rect
  let intersecting_line_bbs := line_bbs.filter (fun l => annotRect.intersects l)
  if annot.type = PDF_ANNOT_TEXT then
    .ok ⟨pageno, annot.type, annot.info, annot.xref, annot.irt_xref, annotRect, none⟩
  else
    match (sortByY1 intersecting_line_bbs).head? with
    | none => .error "IndexError: list index out of range"
    | some highest_baseline_bb =>
      let annotRect' :=
        if annot.type = PDF_ANNOT_CARET then
          { annotRect with y1 := highest_baseline_bb.y1 }
        else annotRect
      .ok ⟨pageno, annot.type, annot.info, annot.xref, annot.irt_xref, annotRect',
           some highest_baseline_bb⟩

def stabilizePage (pageno : Nat) (page : Page) : Except String (List Annot) :=
  exceptMap (stabilizeAnnot pageno page.line_bbs) page.annots

def stabilizePagesFrom (pageno : Nat) : List Page → Except String (List (List Annot))
  | [] => .ok []
  | p :: ps =>
    match stabilizePage pageno p with
    | .error e => .error e
    | .ok sa =>
      match stabilizePagesFrom (pageno + 1) ps with
      | .error e => .error e
      | .ok rest => .ok (sa :: rest)

/-- `getStableAnnots` of extract.py: one list of stable annotations per page, in page and
annotation order. -/
def getStableAnnots (doc : List Page) : Except String (List (List Annot)) :=
  stabilizePagesFrom 0 doc

/-- `getAllResponses` of extract.py, read at one key: annotations (in page-then-annotation
order) whose in-reply-to reference equals `xref`; annotations with `irt_xref = 0` are never
responses. -/
def getAllResponses (stable : List (List Annot)) (xref : Int) : List Annot :=
  stable.flatten.filter (fun a => a.irt_xref != 0 && a.irt_xref == xref)

/-- Append `a` to the group keyed `t`, creating the group at the end on first occurrence
(Python dict insertion order). -/
def groupInsert (t : AnnotType) (a : Annot) :
    List (AnnotType × List Annot) → List (AnnotType × List Annot)
  | [] => [(t, [a])]
  | (t', l) :: rest =>
    if t = t' then (t', l ++ [a]) :: rest else (t', l) :: groupInsert t a rest

def groupByType (resps : List Annot) : List (AnnotType × List Annot) :=
  resps.foldl (fun acc r => groupInsert r.type r acc) []

/-- Membership-ordered association lookup, modelling Python `dict[type]` access. -/
def lookupGroup (groups : List (AnnotType × List Annot)) (t : AnnotType) :
    Option (List Annot) :=
  match groups with
  | [] => none
  | (t', l) :: rest => if t = t' then some l else lookupGroup rest t

/-- Computable lexicographic comparison of character lists; agrees with `List.lt`
(`charListLt_iff` below). -/
def charListLt : List Char → List Char → Bool
  | [], [] => false
  | [], _ :: _ => true
  | _ :: _, [] => false
  | a :: as, b :: bs =>
    if a < b then true
    else if b < a then false
    else charListLt as bs

/-- Python `a <= b` on strings (code-point lexicographic); agrees with `≤` on `String`
(`pyStrLe_iff` below). -/
def pyStrLe (a b : String) : Bool :=
  !charListLt b.data a.data

/-- Insert an annotation into a list sorted by ascending creation date (stable). -/
def orderedInsertCreation (a : Annot) : List Annot → List Annot
  | [] => [a]
  | b :: l =>
    if pyStrLe a.info.creationDate b.info.creationDate then a :: b :: l
    else b :: orderedInsertCreation a l

/-- Stable sort by creation date, modelling
`sorted(resps, key = lambda r: r.info['creationDate'])`. -/
def sortByCreation : List Annot → List Annot
  | [] => []
  | a :: l => orderedInsertCreation a (sortByCreation l)

/-- `getResponses` of extract.py: the responses to `annot`, grouped by annotation type and
each group sorted by ascending creation date.  A root with no responses yields the empty
grouping (the source returns the empty list). -/
def getResponses (annot : Annot) (stable : List (List Annot)) :
    List (AnnotType × List Annot) :=
  let resps := getAllResponses stable annot.xref
  match resps with
  | [] => []
  | _ => (groupByType resps).map (fun g => (g.1, sortByCreation g.2))

/-- `isReplaceAnnot` of extract.py (the classifier): decides whether a root and its grouped
responses form a Replace pair; the two `assert`s become errors. -/
def isReplaceAnnot (ann : Annot) (ann_resps : List (AnnotType × List Annot)) :
    Except String (Bool × Option Annot) :=
  if ¬ (ann.type = PDF_ANNOT_STRIKE_OUT ∨ ann.type = PDF_ANNOT_CARET) ∨ ann_resps = [] then
    .ok (false, none)
  else if (lookupGroup ann_resps ann.type).isSome then
    .error "AssertionError: responses are in response to annotation of same type"
  else if ¬ (ann_resps.length ≤ 2) then
    .error "AssertionError: responses of more than two types"
  else
    let other_ann_type :=
      if ann.type = PDF_ANNOT_CARET then PDF_ANNOT_STRIKE_OUT else PDF_ANNOT_CARET
    match lookupGroup ann_resps other_ann_type with
    | some (other_ann :: rest) =>
      if rest = [] then
        .ok (ann.rect.intersects other_ann.rect && other_ann.info.content == "", some other_ann)
      else .ok (false, none)
    | _ => .ok (false, none)

/-- The regex dispatch `re.match('(?:Replace|StrikeOut|Highlight|Underline)', name)` of
`getSelection` (anchored at the start of the name). -/
def selectionNameMatches (name : String) : Bool :=
  "Replace".data.isPrefixOf name.data || "StrikeOut".data.isPrefixOf name.data ||
  "Highlight".data.isPrefixOf name.data || "Underline".data.isPrefixOf name.data

/-- `getSelection` of extract.py.  The source unpacks `ann.intersecting_line_bb` before
dispatching on the type, so a missing line box raises regardless of type (TypeError). -/
def getSelection (ann : Annot) (doc : List Page) : Except String (Option String) :=
  let buff := EXTRACT_TEXT_BUFFER_WIDTH
  let selection_name := ann.type.name
  match doc[ann.pageno]? with
  | none => .error "IndexError: page index out of range"
  | some page =>
    match ann.intersecting_line_bb with
    | none => .error "TypeError: cannot unpack non-iterable NoneType object"
    | some lb =>
      if selection_name = "Caret" then
        let insertion_point_x := ann.rect.x0 + ann.rect.width / 2
        let left_rect : Rect := ⟨lb.x0, lb.y0, insertion_point_x - CARET_BUFF, lb.y1⟩
        let right_rect : Rect := ⟨insertion_point_x + CARET_BUFF, lb.y0, lb.x1, lb.y1⟩
        .ok (some (page.textbox left_rect ++ "<Caret></Caret>" ++ page.textbox right_rect))
      else if selectionNameMatches selection_name then
        let left_rect : Rect := ⟨lb.x0, lb.y0, ann.rect.x0 - buff, lb.y1⟩
        let middle_rect : Rect := ⟨ann.rect.x0 + buff / 2, lb.y0, ann.rect.x1 - buff / 2, lb.y1⟩
        let right_rect : Rect := ⟨ann.rect.x1 + buff, lb.y0, lb.x1, lb.y1⟩
        .ok (some (page.textbox left_rect ++ "<" ++ selection_name ++ ">" ++
                   page.textbox middle_rect ++ "</" ++ selection_name ++ ">" ++
                   page.textbox right_rect))
      else .ok none

/-- The Replace promotion of `getCorrections`: a Caret root additionally takes the paired
Strikeout's rectangle (reading `other_ann.rect` raises if the pair is absent), and the type
becomes `Replace`. -/
def applyReplace (annot : Annot) (other_ann : Option Annot) : Except String Annot :=
  if annot.type.name = "Caret" then
    match other_ann with
    | none => .error "AttributeError: 'NoneType' object has no attribute 'rect'"
    | some o => .ok { annot with rect := o.rect, type := ANNOT_REPLACE }
  else .ok { annot with type := ANNOT_REPLACE }

/-- The per-root body of the `getCorrections` loop: build the message from the Text
responses, classify, promote on a Replace pair, and resolve the selection. -/
def editForRoot (doc : List Page) (stable : List (List Annot)) (annot : Annot) :
    Except String Edit :=
  let responses := getResponses annot stable
  let text_responses :=
    match lookupGroup responses PDF_ANNOT_TEXT with
    | some l => l
    | none => []
  let text_contents := text_responses.map (fun resp => resp.info.content)
  let message : Message := ⟨annot.info.content, text_contents⟩
  match isReplaceAnnot annot responses with
  | .error e => .error e
  | .ok (is_replace, other_ann) =>
    let annotE := if is_replace then applyReplace annot other_ann else .ok annot
    match annotE with
    | .error e => .error e
    | .ok annot' =>
      match getSelection annot' doc with
      | .error e => .error e
      | .ok selection_text =>
        .ok ⟨annot'.pageno, annot'.type.name, message, selection_text⟩

/-- `getCorrections` of extract.py: stabilize, then produce one Edit per root
(`irt_xref = 0`) stable annotation, in page-then-annotation order. -/
def getCorrections (doc : List Page) : Except String (List Edit) :=
  match getStableAnnots doc with
  | .error e => .error e
  | .ok stable =>
    exceptMap (editForRoot doc stable) (stable.flatten.filter (fun a => a.irt_xref == 0))

/-- Ascending creation-date order on stable annotations (the sort key of `getResponses`). -/
def creationOrder (a b : Annot) : Prop :=
  a.info.creationDate ≤ b.info.creationDate

/-! ### Concrete scenario documents used by the testable-property claims -/

def c1line : Rect := ⟨0, 0, 100, 10⟩

/-- Root StrikeOut with comment "fix typo" (spec §8, Replace-pair scenario). -/
def c1root : RawAnnot :=
  ⟨PDF_ANNOT_STRIKE_OUT, ⟨"fix typo", "D:20240101"⟩, 1, 0, ⟨10, 0, 20, 10⟩⟩

/-- Caret response to `c1root` with empty content and an intersecting rectangle. -/
def c1caret : RawAnnot :=
  ⟨PDF_ANNOT_CARET, ⟨"", "D:20240102"⟩, 2, 1, ⟨12, 0, 14, 12⟩⟩

def c1page : Page := ⟨[c1line], [c1root, c1caret], fun _ => ""⟩

def c1doc : List Page := [c1page]

def c1rootStable : Annot :=
  ⟨0, PDF_ANNOT_STRIKE_OUT, ⟨"fix typo", "D:20240101"⟩, 1, 0, ⟨10, 0, 20, 10⟩, some c1line⟩

def c1caretStable : Annot :=
  ⟨0, PDF_ANNOT_CARET, ⟨"", "D:20240102"⟩, 2, 1, ⟨12, 0, 14, 10⟩, some c1line⟩

/-- The stabilized form of `c1doc` (the Caret's bottom edge is raised to the line's). -/
def c1stable : List (List Annot) := [[c1rootStable, c1caretStable]]

/-- The single Edit `getCorrections` produces for `c1doc`. -/
def c1edit : Edit := ⟨0, "Replace", ⟨"fix typo", []⟩, some "<Replace></Replace>"⟩

/-- Document whose only annotation is a root Text note (a sticky comment). -/
def c3raw : RawAnnot := ⟨PDF_ANNOT_TEXT, ⟨"note", "D:20240103"⟩, 7, 0, ⟨10, 10, 20, 20⟩⟩

def c3page : Page := ⟨[⟨0, 0, 100, 10⟩], [c3raw], fun _ => ""⟩

def c3doc : List Page := [c3page]

/-- The stable annotation the Stabilizer produces for `c3raw`: no intersecting line box. -/
def c3ann : Annot := ⟨0, PDF_ANNOT_TEXT, ⟨"note", "D:20240103"⟩, 7, 0, ⟨10, 10, 20, 20⟩, none⟩

def c6line : Rect := ⟨0, 0, 100, 10⟩

def c6root : RawAnnot := ⟨PDF_ANNOT_STRIKE_OUT, ⟨"pls", "D:0"⟩, 1, 0, ⟨10, 0, 20, 10⟩⟩

/-- Later Text response "B" — listed before "A" in raw order to exercise the sort. -/
def c6respB : RawAnnot := ⟨PDF_ANNOT_TEXT, ⟨"B", "D:2"⟩, 2, 1, ⟨30, 0, 35, 5⟩⟩

/-- Earlier Text response "A". -/
def c6respA : RawAnnot := ⟨PDF_ANNOT_TEXT, ⟨"A", "D:1"⟩, 3, 1, ⟨40, 0, 45, 5⟩⟩

def c6page : Page := ⟨[c6line], [c6root, c6respB, c6respA], fun _ => ""⟩

def c6doc : List Page := [c6page]

def c6rootStable : Annot :=
  ⟨0, PDF_ANNOT_STRIKE_OUT, ⟨"pls", "D:0"⟩, 1, 0, ⟨10, 0, 20, 10⟩, some c6line⟩

def c6respBStable : Annot := ⟨0, PDF_ANNOT_TEXT, ⟨"B", "D:2"⟩, 2, 1, ⟨30, 0, 35, 5⟩, none⟩

def c6respAStable : Annot := ⟨0, PDF_ANNOT_TEXT, ⟨"A", "D:1"⟩, 3, 1, ⟨40, 0, 45, 5⟩, none⟩

def c6stable : List (List Annot) := [[c6rootStable, c6respBStable, c6respAStable]]

/-- The single Edit `getCorrections` produces for `c6doc`. -/
def c6edit : Edit := ⟨0, "StrikeOut", ⟨"pls", ["A", "B"]⟩, some "<StrikeOut></StrikeOut>"⟩

/-- Non-Text annotation whose rectangle misses every line box of its page. -/
def c9annot : RawAnnot := ⟨PDF_ANNOT_STRIKE_OUT, ⟨"x", "D:4"⟩, 9, 0, ⟨200, 200, 210, 210⟩⟩

def c9line_bbs : List Rect := [⟨0, 0, 100, 10⟩]

/-- Concrete Caret root and Strikeout partner for the C10 witness. -/
def c10caret : Annot :=
  ⟨0, PDF_ANNOT_CARET, ⟨"swap", "D:5"⟩, 4, 0, ⟨12, 0, 14, 10⟩, some ⟨0, 0, 100, 10⟩⟩

def c10strike : Annot :=
  ⟨0, PDF_ANNOT_STRIKE_OUT, ⟨"", "D:6"⟩, 5, 4, ⟨10, 0, 20, 10⟩, some ⟨0, 0, 100, 10⟩⟩

/-! ### Pipeline B: unit conversions and the box-position decoder
(src/texpdfedits/segmentsource.py) -/

def SCALED_POINTS_PER_TEX_POINT : ℚ := 2 ^ 16

/-- `TEX_POINTS_TO_PDF_POINTS_CONVERSION_RATIO` of segmentsource.py: 72 bp per inch over
72.27 TeX points per inch. -/
def TEX_POINTS_TO_PDF_POINTS_CONVERSION : ℚ := 72 / 72.27

/-- Half a point of discrepancy is allowed between `x0 + width` and `x1`. -/
def WORD_BOX_WIDTH_TOLERANCE : ℚ := 1

def texPointsToPDFpoints (tex_pts : ℚ) : ℚ :=
  tex_pts * TEX_POINTS_TO_PDF_POINTS_CONVERSION

def scaledPointsToPDFpoints (sp : Int) : ℚ :=
  texPointsToPDFpoints ((sp : ℚ) / SCALED_POINTS_PER_TEX_POINT)

def digitsToNat (cs : List Char) : Nat :=
  cs.foldl (fun n c => n * 10 + (c.toNat - 48)) 0

def parseNatDigits (cs : List Char) : Option Nat :=
  if cs ≠ [] ∧ cs.all Char.isDigit then some (digitsToNat cs) else none

/-- Python `int()` on the decimal strings that appear in the auxiliary log. -/
def parseInt (s : String) : Option Int :=
  match s.data with
  | '-' :: rest => (parseNatDigits rest).map (fun n => -(n : Int))
  | cs => (parseNatDigits cs).map (fun n => (n : Int))

/-- Python `float()` on the fixed-point decimal strings that appear in the auxiliary log,
modelled exactly over ℚ. -/
def parseRat (s : String) : Option ℚ :=
  let signed : Bool × List Char :=
    match s.data with
    | '-' :: r => (true, r)
    | cs => (false, cs)
  let intPart := signed.2.takeWhile (fun c => c ≠ '.')
  let dotRest := signed.2.dropWhile (fun c => c ≠ '.')
  let value? : Option ℚ :=
    match dotRest with
    | [] => (parseNatDigits intPart).map (fun n => (n : ℚ))
    | _ :: frac =>
      if (intPart ≠ [] ∨ frac ≠ []) ∧ intPart.all Char.isDigit ∧ frac.all Char.isDigit then
        some ((digitsToNat intPart : ℚ) + (digitsToNat frac : ℚ) / (10 : ℚ) ^ frac.length)
      else none
  value?.map (fun v => if signed.1 then -v else v)

/-- `unzipHbox` of segmentsource.py: page field, then the metric fields converted from TeX
points to PDF points (a non-numeric field raises ValueError). -/
def unzipHbox (hbox : List String) : Except String (String × List ℚ) :=
  match hbox with
  | [] => .error "IndexError: list index out of range"
  | pg :: rest =>
    match exceptMap (fun pts =>
        match parseRat pts with
        | some v => .ok (texPointsToPDFpoints v)
        | none => .error "ValueError: could not convert string to float") rest with
    | .error e => .error e
    | .ok vals => .ok (pg, vals)

/-- `unzipPos` of segmentsource.py: page field, then all but the trailing (empty) field
converted from scaled points to PDF points. -/
def unzipPos (stend_xy : List String) : Except String (String × List ℚ) :=
  match stend_xy with
  | [] => .error "IndexError: list index out of range"
  | pg :: rest =>
    match exceptMap (fun spts =>
        match parseInt spts with
        | some v => .ok (scaledPointsToPDFpoints v)
        | none => .error "ValueError: invalid literal for int()") rest.dropLast with
    | .error e => .error e
    | .ok vals => .ok (pg, vals)

/-- `boxinfoToPDFRectangle` of segmentsource.py: `.ok none` models the recoverable
"ignoring" cases (cross-page unit, cross-line unit, width beyond tolerance); the returned
rectangle is in top-left/bottom-right convention. -/
def boxinfoToPDFRectangle (key : String) (hbox start_xy end_xy : List String) :
    Except String (Option (String × Rect)) :=
  match unzipHbox hbox with
  | .error e => .error e
  | .ok (_pgA, dims) =>
    match dims with
    | [width, height, depth] =>
      match unzipPos start_xy with
      | .error e => .error e
      | .ok (pgB, st) =>
        match st with
        | [x0, sy] =>
          match unzipPos end_xy with
          | .error e => .error e
          | .ok (pgC, en) =>
            match en with
            | [x1, ey] =>
              if pgB ≠ pgC then .ok none
              else if sy ≠ ey then .ok none
              else if |x0 + width - x1| > WORD_BOX_WIDTH_TOLERANCE then .ok none
              else .ok (some (pgB, ⟨x0, sy + height, x1, sy - depth⟩))
            | _ => .error "ValueError: not enough values to unpack"
        | _ => .error "ValueError: not enough values to unpack"
    | _ => .error "ValueError: not enough values to unpack"

def isPyWhitespace (c : Char) : Bool :=
  c = ' ' || c = '\t' || c = '\n' || c = '\r' || c = '\x0b' || c = '\x0c'

/-- Python `str.strip()`. -/
def pyStrip (s : String) : String :=
  String.mk (((s.data.dropWhile isPyWhitespace).reverse.dropWhile isPyWhitespace).reverse)

/-- Python `str.strip('pt')`. -/
def stripPt (s : String) : String :=
  String.mk (((s.data.dropWhile (fun c => c = 'p' || c = 't')).reverse.dropWhile
    (fun c => c = 'p' || c = 't')).reverse)

/-- Split a line at every colon (the fields of the record grammar contain no colon). -/
def splitOnColon : List Char → List (List Char)
  | [] => [[]]
  | c :: rest =>
    let r := splitOnColon rest
    if c = ':' then [] :: r
    else
      match r with
      | [] => [[c]]
      | g :: gs => (c :: g) :: gs

/-- The record grammar `^(m?\d+):(pwhd|spxy|epxy):(\d+):([^:]*):([^:]*):([^:]*)$` of
`getWordBoxes`; the extracted values are groups 3-6 with `'pt'` stripped. -/
def isBoxKey (cs : List Char) : Bool :=
  match cs with
  | 'm' :: rest => !rest.isEmpty && rest.all Char.isDigit
  | _ => !cs.isEmpty && cs.all Char.isDigit

def parseBoxLine (line : String) : Option (String × String × List String) :=
  match (splitOnColon line.data).map String.mk with
  | [key, label, page, f1, f2, f3] =>
    if isBoxKey key.data &&
        (label == "pwhd" || label == "spxy" || label == "epxy") &&
        (!page.data.isEmpty && page.data.all Char.isDigit) then
      some (key, label, [page, f1, f2, f3].map stripPt)
    else none
  | _ => none

/-- Record store of `getWordBoxes`: unit id → (record kind → field values), both levels in
insertion order like Python dicts. -/
def WordBoxes : Type := List (String × List (String × List String))

/-- Add one parsed record; a duplicate record kind for a unit is a fatal error. -/
def addRecord : WordBoxes → String → String → List String → Except String WordBoxes
  | [], key, label, vals => .ok [(key, [(label, vals)])]
  | (k, entries) :: rest, key, label, vals =>
    if key = k then
      if (List.lookup label entries).isSome then
        .error "Somehow label was already present; each label may appear at most once"
      else .ok ((k, entries ++ [(label, vals)]) :: rest)
    else
      match addRecord rest key label vals with
      | .error e => .error e
      | .ok rest' => .ok ((k, entries) :: rest')

/-- The line-reading loop of `getWordBoxes`: stops at the first line that strips to empty
(Python `while line:` over `readline().strip()`), fatal on any non-matching line. -/
def readBoxLines (wb : WordBoxes) : List String → Except String WordBoxes
  | [] => .ok wb
  | line :: rest =>
    let l := pyStrip line
    if l = "" then .ok wb
    else
      match parseBoxLine l with
      | none => .error "Somehow a line did not match the info spec. Exiting unsuccessfully."
      | some (key, label, vals) =>
        match addRecord wb key label vals with
        | .error e => .error e
        | .ok wb' => readBoxLines wb' rest

/-- Append one decoded rectangle to the page map (Python dict insertion order). -/
def insertRect (pr : List (Int × List (String × Rect))) (pageno : Int) (key : String)
    (rect : Rect) : List (Int × List (String × Rect)) :=
  match pr with
  | [] => [(pageno, [(key, rect)])]
  | (p, m) :: rest =>
    if p = pageno then (p, m ++ [(key, rect)]) :: rest
    else (p, m) :: insertRect rest pageno key rect

/-- The per-unit decoding loop of `getWordBoxes`: reads `info['pwhd']`, `info['spxy']` and
`info['epxy']` (KeyError when absent), drops unusable units, converts the page number to a
zero-based index. -/
def buildPageRectangles (acc : List (Int × List (String × Rect))) :
    WordBoxes → Except String (List (Int × List (String × Rect)))
  | [] => .ok acc
  | (key, info) :: rest =>
    match List.lookup "pwhd" info with
    | none => .error "KeyError: 'pwhd'"
    | some pwhd =>
      match List.lookup "spxy" info with
      | none => .error "KeyError: 'spxy'"
      | some spxy =>
        match List.lookup "epxy" info with
        | none => .error "KeyError: 'epxy'"
        | some epxy =>
          match boxinfoToPDFRectangle key pwhd spxy epxy with
          | .error e => .error e
          | .ok none => buildPageRectangles acc rest
          | .ok (some (one_indexed_pageno, rectangle)) =>
            match parseInt one_indexed_pageno with
            | none => .error "ValueError: invalid literal for int()"
            | some pg => buildPageRectangles (insertRect acc (pg - 1) key rectangle) rest

/-- `getWordBoxes` of segmentsource.py.  The count check transcribes the source's
`if not all(filter(lambda x: x == 3, map(lambda d: len(d), word_boxes.values())))`
faithfully, Python truthiness of an int being `≠ 0`. -/
def getWordBoxes (lines : List String) (tot_num_boxes : Nat) :
    Except String (List (Int × List (String × Rect))) :=
  match readBoxLines [] lines with
  | .error e => .error e
  | .ok word_boxes =>
    if ¬ ((((word_boxes.map fun kv => kv.2.length).filter fun n => n == 3).all
            fun n => n != 0) = true) then
      .error "Information extracted from marks somehow differed from spec."
    else
      buildPageRectangles [] word_boxes

/-! ### Pipeline B: the TeX node marker (markNode / segment of segmentsource.py) -/

def ALLOWED_MARK_ENVIRONMENTS : List String :=
  ["proof", "enumerate", "itemize", "document", "thebibliography", "biblist", "bibdiv",
   "bibsec"]

/-- Parse-tree node of the external LaTeX walker; each node carries its verbatim source
form, and environment nodes carry their child list. -/
inductive LatexNode where
  | envNode (envname : String) (verbatim : String) (nodelist : List LatexNode)
  | macroNode (verbatim : String)
  | mathNode (displaytype : String) (verbatim : String)
  | charsNode (verbatim : String)
  | groupNode (verbatim : String)
  | otherNode (kind : String) (verbatim : String)

def latex_verbatim : LatexNode → String
  | .envNode _ v _ => v
  | .macroNode v => v
  | .mathNode _ v => v
  | .charsNode v => v
  | .groupNode v => v
  | .otherNode _ v => v

/-- Python `''.join(node.latex_verbatim() for node in nodes)`. -/
def joinVerbatim (nodes : List LatexNode) : String :=
  String.join (nodes.map latex_verbatim)

/-- `markStr` of `markNode`: wrap a string in a numbered `\markbox` directive; inline math
gets an `m`-prefixed number. -/
def markStr (counter : Nat) (is_inline_math : Bool) (s : String) : String :=
  "\\markbox\x7b" ++ (if is_inline_math then "m" else "") ++ toString counter ++
  "\x7d\x7b" ++ s ++ "\x7d"

/-- The whitespace class `[\t\n ]` of the word-marking regex. -/
def isMarkWs (c : Char) : Bool :=
  c = '\t' || c = '\n' || c = ' '

/-- One pass of `re.subn(r"(?<=[\t\n ])\b[a-zA-Z]+\b(?=[\t\n ])", ...)`: every maximal
ASCII-letter run preceded and followed by the whitespace class is wrapped; fuel is the
character count, which bounds the recursion. -/
def markWordsAux : Nat → Nat → Bool → List Char → String × Nat
  | 0, counter, _, cs => (String.mk cs, counter)
  | fuel + 1, counter, prevWs, cs =>
    match cs with
    | [] => ("", counter)
    | c :: rest =>
      if prevWs && c.isAlpha then
        let run := (c :: rest).takeWhile Char.isAlpha
        let rest' := (c :: rest).dropWhile Char.isAlpha
        match rest'.head? with
        | some d =>
          if isMarkWs d then
            let tailRes := markWordsAux fuel (counter + 1) false rest'
            (markStr counter false (String.mk run) ++ tailRes.1, tailRes.2)
          else
            let tailRes := markWordsAux fuel counter false rest'
            (String.mk run ++ tailRes.1, tailRes.2)
        | none => (String.mk run, counter)
      else
        let tailRes := markWordsAux fuel counter (isMarkWs c) rest
        (String.mk [c] ++ tailRes.1, tailRes.2)

def markWords (counter : Nat) (s : String) : String × Nat :=
  markWordsAux (s.data.length + 1) counter false s.data

mutual

/-- `recMark` of `markNode`, with the shared mutable counter made explicit.  Environment
nodes are verified to reassemble from their children before any marking (fatal otherwise);
allowed environments recurse, others are emitted verbatim; inline math is wrapped whole;
character nodes are word-marked; macros, groups, display math and unknown nodes are
verbatim. -/
def recMark (allowed : List String) (counter : Nat) :
    LatexNode → Except String (String × Nat)
  | .envNode envname verbatim nodelist =>
    let verbatim_contents := joinVerbatim nodelist
    let reconstructed_whole :=
      "\\begin\x7b" ++ envname ++ "\x7d" ++ verbatim_contents ++
      "\\end\x7b" ++ envname ++ "\x7d"
    if verbatim ≠ reconstructed_whole then
      .error "pylatexenc environment node in markNode was malformed or parsed incorrectly"
    else if allowed.contains envname then
      match recMarkList allowed counter nodelist with
      | .error e => .error e
      | .ok (marked_contents, counter') =>
        .ok ("\\begin\x7b" ++ envname ++ "\x7d" ++ marked_contents ++
             "\\end\x7b" ++ envname ++ "\x7d", counter')
    else .ok (reconstructed_whole, counter)
  | .macroNode v => .ok (v, counter)
  | .mathNode displaytype v =>
    if displaytype = "inline" then .ok (markStr counter true v, counter + 1)
    else .ok (v, counter)
  | .charsNode v =>
    let res := markWords counter v
    .ok (res.1, res.2)
  | .groupNode v => .ok (v, counter)
  | .otherNode _ v => .ok (v, counter)

/-- Sequential marking of a node list, threading the counter (the `marked_contents`
accumulation of `recMark`). -/
def recMarkList (allowed : List String) (counter : Nat) :
    List LatexNode → Except String (String × Nat)
  | [] => .ok ("", counter)
  | n :: rest =>
    match recMark allowed counter n with
    | .error e => .error e
    | .ok (s, c') =>
      match recMarkList allowed c' rest with
      | .error e => .error e
      | .ok (s', c'') => .ok (s ++ s', c'')

end

/-- `markNode` of segmentsource.py: mark a node starting the counter at 0; the returned
count is the final counter value (`next(counter)` after the walk). -/
def markNode (latex_node : LatexNode) (allowed_environments : List String) :
    Except String (String × Nat) :=
  recMark allowed_environments 0 latex_node

def isEnvNode : LatexNode → Bool
  | .envNode _ _ _ => true
  | _ => false

def isDocumentEnv : LatexNode → Bool
  | .envNode envname _ _ => envname == "document"
  | _ => false

/-- `get_preamble_and_document` of segmentsource.py: exactly one `document` environment is
required; the preamble is everything before the first environment node, which is returned
as the document node. -/
def get_preamble_and_document (nodelist : List LatexNode) :
    Except String (List LatexNode × LatexNode) :=
  if (nodelist.filter isDocumentEnv).length ≠ 1 then
    .error "Found more (or less) than one begin document during getPreambleAndDocument."
  else
    match nodelist.dropWhile (fun n => !isEnvNode n) with
    | [] => .error "IndexError: list index out of range"
    | d :: _ => .ok (nodelist.takeWhile (fun n => !isEnvNode n), d)

/-- The `\markbox` macro definition written into the instrumented preamble. -/
def markbox_def : String :=
  "\n\\newcommand\x7b\\markbox\x7d[2]\x7b%\n  \\setbox0=\\hbox\x7b#2\x7d%\n  \\immediate\\write\\markfile\x7b#1:pwhd:\\the\\value\x7bpage\x7d:\\the\\wd0:\\the\\ht0:\\the\\dp0\x7d%\n  \\pdfsavepos\n  \\write\\markfile\x7b#1:spxy:\\the\\value\x7bpage\x7d:\\the\\pdflastxpos:\\the\\pdflastypos:\x7d%\n  #2% \n  \\pdfsavepos\n  \\write\\markfile\x7b#1:epxy:\\the\\value\x7bpage\x7d:\\the\\pdflastxpos:\\the\\pdflastypos:\x7d%\n\x7d\n\n"

/-- The marking phase of `segment` that runs after the round-trip check: split preamble and
document, mark the document, and assemble the instrumented source.  The external TeX soup
(`enunciations`) and the filename stem are inputs; the subsequent pdflatex/diff-pdf
subprocess stages are external effects outside this model. -/
def segmentMarking (tex_stem : String) (nodelist : List LatexNode)
    (enunciations : List String) : Except String (String × Nat) :=
  match get_preamble_and_document nodelist with
  | .error e => .error e
  | .ok (preambleNodes, documentNode) =>
    let preamble_str := joinVerbatim preambleNodes
    let mark_out_file := "boxpositions_" ++ tex_stem ++ ".txt"
    let tex_write_commands :=
      "\n\\newwrite\\markfile\n\\immediate\\openout\\markfile=" ++ mark_out_file ++ "\n"
    match markNode documentNode (ALLOWED_MARK_ENVIRONMENTS ++ enunciations) with
    | .error e => .error e
    | .ok (marked_document, num_marks) =>
      .ok (preamble_str ++ tex_write_commands ++ markbox_def ++ marked_document, num_marks)

def ROUNDTRIP_ERROR : String :=
  "Verbatim string tex source was not preserved after LatexWalker parsing. The parser has likely failed. Exiting unsuccessfully."

/-- `segment` of segmentsource.py (its pure core; named `segmentTex` because Mathlib already
has a `segment`): the verbatim round-trip check is the first step; on failure the run aborts
before any marking, otherwise marking proceeds. -/
def segmentTex (tex_stem tex_str : String) (nodelist : List LatexNode)
    (enunciations : List String) : Except String (String × Nat) :=
  if joinVerbatim nodelist ≠ tex_str then .error ROUNDTRIP_ERROR
  else segmentMarking tex_stem nodelist enunciations

/-! ### Concrete pipeline-B inputs for the witnesses -/

/-- Auxiliary log in which unit "3" is missing its `epxy` (end-position) record. -/
def c2lines : List String := ["3:pwhd:1:2:3:4", "3:spxy:1:5:6:"]

/-- Auxiliary log with a duplicate `pwhd` record for unit "3". -/
def c2dupLines : List String := ["3:pwhd:1:2:3:4", "3:pwhd:1:2:3:4"]

/-- Metric record whose converted width is exactly the tolerance away from `x1 - x0`:
1.00375 TeX pt · 72/72.27 = 1 PDF pt. -/
def c8hboxKeep : List String := ["1", "1.00375", "1", "1"]

/-- Metric record whose converted width exceeds the tolerance: 2.0075 TeX pt → 2 PDF pt. -/
def c8hboxDrop : List String := ["1", "2.0075", "1", "1"]

def c8start : List String := ["1", "0", "0", ""]

def c8end : List String := ["1", "0", "0", ""]

def c7badNodes : List LatexNode := [.charsNode "a"]

def c7goodNodes : List LatexNode :=
  [.macroNode "\\documentclass\x7barticle\x7d",
   .envNode "document" "\\begin\x7bdocument\x7dhi\\end\x7bdocument\x7d" [.charsNode "hi"]]

def c7goodTex : String := joinVerbatim c7goodNodes

/-! ### Helper lemmas about the loop combinators -/

theorem exceptMap_ok_spec (f : α → Except String β) :
    ∀ {l : List α} {l' : List β}, exceptMap f l = .ok l' →
      l'.length = l.length ∧
      ∀ (i : Nat) (a : α), l[i]? = some a → ∃ b, l'[i]? = some b ∧ f a = .ok b := by
  intro l
  induction l with
  | nil =>
    intro l' h
    simp only [exceptMap] at h
    cases h
    exact ⟨rfl, by intro i a ha; simp at ha⟩
  | cons x xs ih =>
    intro l' h
    simp only [exceptMap] at h
    cases hx : f x with
    | error e => rw [hx] at h; cases h
    | ok b =>
      rw [hx] at h
      cases hxs : exceptMap f xs with
      | error e => rw [hxs] at h; cases h
      | ok bs =>
        rw [hxs] at h
        cases h
        obtain ⟨hlen, hpt⟩ := ih hxs
        refine ⟨by simp [hlen], ?_⟩
        intro i a ha
        cases i with
        | zero =>
          simp only [List.getElem?_cons_zero, Option.some.injEq] at ha
          subst ha
          exact ⟨b, by simp, hx⟩
        | succ n =>
          simp only [List.getElem?_cons_succ] at ha ⊢
          exact hpt n a ha

theorem stabilizePagesFrom_ok_spec :
    ∀ (n : Nat) (doc : List Page) (stable : List (List Annot)),
      stabilizePagesFrom n doc = .ok stable →
      stable.length = doc.length ∧
      ∀ i page, doc[i]? = some page → ∃ sa, stable[i]? = some sa ∧
        stabilizePage (n + i) page = .ok sa := by
  intro n doc
  induction doc generalizing n with
  | nil =>
    intro stable h
    simp only [stabilizePagesFrom] at h
    cases h
    exact ⟨rfl, by intro i page hp; simp at hp⟩
  | cons p ps ih =>
    intro stable h
    simp only [stabilizePagesFrom] at h
    cases hp : stabilizePage n p with
    | error e => rw [hp] at h; cases h
    | ok sa =>
      rw [hp] at h
      cases hps : stabilizePagesFrom (n + 1) ps with
      | error e => rw [hps] at h; cases h
      | ok rest =>
        rw [hps] at h
        cases h
        obtain ⟨hlen, hpt⟩ := ih (n + 1) rest hps
        refine ⟨by simp [hlen], ?_⟩
        intro i page hpage
        cases i with
        | zero =>
          simp only [List.getElem?_cons_zero, Option.some.injEq] at hpage
          exact ⟨sa, by simp, by rw [Nat.add_zero]; exact hpage ▸ hp⟩
        | succ m =>
          simp only [List.getElem?_cons_succ] at hpage ⊢
          obtain ⟨sa', hsa', hst⟩ := hpt m page hpage
          refine ⟨sa', hsa', ?_⟩
          have : n + 1 + m = n + (m + 1) := by omega
          rw [this] at hst
          exact hst

theorem stabilizeAnnot_ok {pageno : Nat} {line_bbs : List Rect} {annot : RawAnnot} {a : Annot}
    (h : stabilizeAnnot pageno line_bbs annot = .ok a) :
    a.pageno = pageno ∧ a.type = annot.type ∧ a.info = annot.info ∧ a.xref = annot.xref ∧
    a.irt_xref = annot.irt_xref ∧
    (annot.type ≠ PDF_ANNOT_CARET → a.rect = annot.rect) ∧
    (annot.type = PDF_ANNOT_CARET →
      a.rect.x0 = annot.rect.x0 ∧ a.rect.y0 = annot.rect.y0 ∧ a.rect.x1 = annot.rect.x1 ∧
      ∃ bb, a.intersecting_line_bb = some bb ∧ a.rect.y1 = bb.y1) := by
  simp only [stabilizeAnnot] at h
  split at h
  next htext =>
    cases h
    exact ⟨rfl, rfl, rfl, rfl, rfl, fun _ => rfl,
           fun hc => absurd (htext.symm.trans hc) (by decide)⟩
  next htext =>
    split at h
    next => cases h
    next bb hh =>
      cases h
      refine ⟨rfl, rfl, rfl, rfl, rfl, ?_, ?_⟩
      · intro hne
        simp only [if_neg hne]
      · intro hc
        refine ⟨?_, ?_, ?_, bb, rfl, ?_⟩ <;> simp [hc]

/-! ### Sortedness of the response groups -/

theorem charListLt_iff : ∀ (as bs : List Char), charListLt as bs = true ↔ as < bs
  | [], [] => by
    constructor
    · intro h; cases h
    · intro h; cases h
  | [], _ :: _ => by
    constructor
    · intro _
      exact List.Lex.nil
    · intro _
      simp [charListLt]
  | _ :: _, [] => by
    constructor
    · intro h
      simp [charListLt] at h
    · intro h; cases h
  | a :: as, b :: bs => by
    simp only [charListLt]
    by_cases hab : a < b
    · rw [if_pos hab]
      constructor
      · intro _
        exact List.Lex.rel hab
      · intro _
        rfl
    · rw [if_neg hab]
      by_cases hba : b < a
      · rw [if_pos hba]
        constructor
        · intro h; cases h
        · intro h
          cases h with
          | rel h' => exact absurd h' hab
          | cons h' => exact absurd hba (lt_irrefl _)
      · rw [if_neg hba]
        have heq : a = b := le_antisymm (le_of_not_lt hba) (le_of_not_lt hab)
        subst heq
        rw [charListLt_iff as bs]
        constructor
        · intro h
          exact List.Lex.cons h
        · intro h
          cases h with
          | rel h' => exact absurd h' hab
          | cons h' => exact h'

theorem pyStrLe_true {a b : String} (h : pyStrLe a b = true) : a ≤ b := by
  rw [pyStrLe, Bool.not_eq_true'] at h
  intro hba
  rw [String.lt_iff_toList_lt] at hba
  have hc : charListLt b.data a.data = true := (charListLt_iff b.data a.data).mpr hba
  rw [hc] at h
  cases h

theorem pyStrLe_false {a b : String} (h : pyStrLe a b = false) : b < a := by
  rw [pyStrLe, Bool.not_eq_false'] at h
  rw [String.lt_iff_toList_lt]
  exact (charListLt_iff b.data a.data).mp h

theorem mem_orderedInsertCreation {a b : Annot} {l : List Annot} :
    b ∈ orderedInsertCreation a l ↔ b = a ∨ b ∈ l := by
  induction l with
  | nil => simp [orderedInsertCreation]
  | cons c m ih =>
    simp only [orderedInsertCreation]
    split
    · simp [List.mem_cons]
    · simp only [List.mem_cons, ih]
      tauto

theorem sorted_orderedInsertCreation {a : Annot} {l : List Annot}
    (h : l.Sorted creationOrder) : (orderedInsertCreation a l).Sorted creationOrder := by
  induction l with
  | nil => simp [orderedInsertCreation]
  | cons b m ih =>
    rw [List.sorted_cons] at h
    obtain ⟨hb, hm⟩ := h
    simp only [orderedInsertCreation]
    split
    next hab =>
      have hab' : creationOrder a b := pyStrLe_true hab
      rw [List.sorted_cons]
      refine ⟨?_, by rw [List.sorted_cons]; exact ⟨hb, hm⟩⟩
      intro x hx
      rcases List.mem_cons.mp hx with rfl | hxm
      · exact hab'
      · exact le_trans hab' (hb x hxm)
    next hab =>
      have hf : pyStrLe a.info.creationDate b.info.creationDate = false := by
        revert hab
        cases pyStrLe a.info.creationDate b.info.creationDate <;> simp
      have hba : creationOrder b a := le_of_lt (pyStrLe_false hf)
      rw [List.sorted_cons]
      refine ⟨?_, ih hm⟩
      intro x hx
      rcases mem_orderedInsertCreation.mp hx with rfl | hxm
      · exact hba
      · exact hb x hxm

theorem sorted_sortByCreation (l : List Annot) : (sortByCreation l).Sorted creationOrder := by
  induction l with
  | nil => simp [sortByCreation]
  | cons a m ih => exact sorted_orderedInsertCreation ih

theorem lookupGroup_map_sortByCreation (g : List (AnnotType × List Annot)) (t : AnnotType) :
    lookupGroup (g.map fun p => (p.1, sortByCreation p.2)) t =
      (lookupGroup g t).map sortByCreation := by
  induction g with
  | nil => rfl
  | cons p rest ih =>
    obtain ⟨t', l⟩ := p
    by_cases h : t = t'
    · simp [lookupGroup, h]
    · simp [lookupGroup, h, ih]

/-! ### The claims -/

/-- C5: for every input document the Stabilizer yields one StableAnnotation per
RawAnnotation — same page count, same per-page count and relative order — preserving page
number, type, info, ids; non-Caret annotations keep their rectangle exactly, and a Caret
keeps its x-coordinates and top edge while its bottom edge y1 becomes the y1 of the selected
intersecting line box. -/
theorem C5_stabilizer_frame (doc : List Page) (stable : List (List Annot))
    (h : getStableAnnots doc = .ok stable) :
    stable.length = doc.length ∧
    ∀ (i : Nat) (page : Page), doc[i]? = some page → ∃ sa, stable[i]? = some sa ∧
      sa.length = page.annots.length ∧
      ∀ (j : Nat) (raw : RawAnnot), page.annots[j]? = some raw → ∃ a, sa[j]? = some a ∧
        a.pageno = i ∧ a.type = raw.type ∧ a.info = raw.info ∧ a.xref = raw.xref ∧
        a.irt_xref = raw.irt_xref ∧
        (raw.type ≠ PDF_ANNOT_CARET → a.rect = raw.rect) ∧
        (raw.type = PDF_ANNOT_CARET →
          a.rect.x0 = raw.rect.x0 ∧ a.rect.y0 = raw.rect.y0 ∧ a.rect.x1 = raw.rect.x1 ∧
          ∃ bb, a.intersecting_line_bb = some bb ∧ a.rect.y1 = bb.y1) := by
  obtain ⟨hlen, hpt⟩ := stabilizePagesFrom_ok_spec 0 doc stable h
  refine ⟨hlen, ?_⟩
  intro i page hpage
  obtain ⟨sa, hsa, hstab⟩ := hpt i page hpage
  obtain ⟨hslen, hspt⟩ := exceptMap_ok_spec _ hstab
  refine ⟨sa, hsa, hslen, ?_⟩
  intro j raw hraw
  obtain ⟨a, ha, hf⟩ := hspt j raw hraw
  have hfacts := stabilizeAnnot_ok hf
  exact ⟨a, ha, by simpa using hfacts.1, hfacts.2.1, hfacts.2.2.1, hfacts.2.2.2.1,
         hfacts.2.2.2.2.1, hfacts.2.2.2.2.2.1, hfacts.2.2.2.2.2.2⟩

theorem C5_stabilizer_frame_witness : c1stable.length = c1doc.length :=
  (C5_stabilizer_frame c1doc c1stable (by decide)).1

/-- C9: a non-Text annotation whose rectangle intersects zero line boxes of its page is a
fatal input-shape violation — the Stabilizer raises (IndexError) instead of skipping the
annotation or producing a StableAnnotation. -/
theorem C9_zero_intersections_fatal (pageno : Nat) (line_bbs : List Rect)
    (annot : RawAnnot) (htype : annot.type ≠ PDF_ANNOT_TEXT)
    (hzero : line_bbs.filter (fun l => annot.rect.intersects l) = []) :
    stabilizeAnnot pageno line_bbs annot = .error "IndexError: list index out of range" := by
  simp only [stabilizeAnnot, hzero]
  rw [if_neg htype]
  rfl

theorem C9_zero_intersections_fatal_witness :
    stabilizeAnnot 0 c9line_bbs c9annot = .error "IndexError: list index out of range" :=
  C9_zero_intersections_fatal 0 c9line_bbs c9annot (by decide) (by decide)

/-- C4: when `getCorrections` succeeds, the number of Edits equals the number of root
(`irt_xref = 0`) StableAnnotations — one Edit per root, none for responses, so a valid
Replace pair of two annotations yields exactly one Edit. -/
theorem C4_one_edit_per_root (doc : List Page) (edits : List Edit)
    (stable : List (List Annot))
    (hc : getCorrections doc = .ok edits) (hs : getStableAnnots doc = .ok stable) :
    edits.length = (stable.flatten.filter fun a => a.irt_xref == 0).length := by
  unfold getCorrections at hc
  rw [hs] at hc
  exact (exceptMap_ok_spec _ hc).1

theorem C4_one_edit_per_root_witness :
    ([c1edit] : List Edit).length =
      (c1stable.flatten.filter fun a => a.irt_xref == 0).length :=
  C4_one_edit_per_root c1doc [c1edit] c1stable (by decide) (by decide)

/-- C10: promoting a Caret root to Replace changes only its type and rectangle — pageno,
info, xref, irt_xref and, in particular, `intersecting_line_bb` (the Caret's originally
selected line box, later used by the Selection Resolver) are unchanged, while the rectangle
becomes the Strikeout partner's. -/
theorem C10_replace_promotion_frame (annot other : Annot)
    (h : annot.type = PDF_ANNOT_CARET) :
    ∃ a', applyReplace annot (some other) = .ok a' ∧
      a'.pageno = annot.pageno ∧ a'.info = annot.info ∧ a'.xref = annot.xref ∧
      a'.irt_xref = annot.irt_xref ∧
      a'.intersecting_line_bb = annot.intersecting_line_bb ∧
      a'.rect = other.rect ∧ a'.type = ANNOT_REPLACE := by
  refine ⟨{ annot with rect := other.rect, type := ANNOT_REPLACE }, ?_,
          rfl, rfl, rfl, rfl, rfl, rfl, rfl⟩
  simp [applyReplace, h, PDF_ANNOT_CARET]

theorem C10_replace_promotion_frame_witness :
    ∃ a', applyReplace c10caret (some c10strike) = .ok a' ∧
      a'.pageno = c10caret.pageno ∧ a'.info = c10caret.info ∧ a'.xref = c10caret.xref ∧
      a'.irt_xref = c10caret.irt_xref ∧
      a'.intersecting_line_bb = c10caret.intersecting_line_bb ∧
      a'.rect = c10strike.rect ∧ a'.type = ANNOT_REPLACE :=
  C10_replace_promotion_frame c10caret c10strike (by decide)

/-- C3 (code bug): the Selection Resolver is supposed to return no selection for types other
than Caret/Replace/StrikeOut/Highlight/Underline, but it unpacks the stored intersecting
line box before dispatching on the type, so a root Text annotation — stored by the
Stabilizer with no line box — raises a TypeError that propagates out of `getCorrections`
instead of yielding a null selection. -/
theorem C3_selection_crashes_on_text_root :
    getSelection c3ann c3doc =
      .error "TypeError: cannot unpack non-iterable NoneType object" ∧
    getStableAnnots c3doc = .ok [[c3ann]] ∧
    getCorrections c3doc =
      .error "TypeError: cannot unpack non-iterable NoneType object" :=
  ⟨by decide, by decide, by decide⟩

/-- C6: every group of the responses-by-type grouping is sorted by ascending creation
timestamp, and in the concrete scenario of a root StrikeOut with Text responses "A"
(earlier) and "B" (later) the resulting Edit has `message.responses = ["A", "B"]`. -/
theorem C6_responses_sorted (annot : Annot) (stable : List (List Annot)) (t : AnnotType)
    (l : List Annot) (h : lookupGroup (getResponses annot stable) t = some l) :
    l.Sorted creationOrder ∧ getCorrections c6doc = .ok [c6edit] := by
  refine ⟨?_, by decide⟩
  cases hr : getAllResponses stable annot.xref with
  | nil =>
    simp only [getResponses, hr] at h
    simp [lookupGroup] at h
  | cons x xs =>
    simp only [getResponses, hr] at h
    rw [lookupGroup_map_sortByCreation] at h
    cases hg : lookupGroup (groupByType (x :: xs)) t with
    | none => rw [hg] at h; cases h
    | some l0 =>
      rw [hg] at h
      simp only [Option.map_some'] at h
      cases h
      exact sorted_sortByCreation l0

theorem C6_responses_sorted_witness : getCorrections c6doc = .ok [c6edit] :=
  (C6_responses_sorted c6rootStable c6stable PDF_ANNOT_TEXT
    [c6respAStable, c6respBStable] (by decide)).2

/-- C1: for a root of type StrikeOut or Caret with a non-empty response grouping that
passes the classifier's invariants (no same-type response, at most two response types), the
classifier answers Replace exactly when the opposite geometric type appears with exactly one
member whose rectangle intersects the root's and whose comment content is empty; and in the
concrete scenario (root StrikeOut "fix typo" + empty intersecting Caret response) exactly
one Edit of type Replace with comment "fix typo" is produced. -/
theorem C1_replace_pair_classification (ann : Annot)
    (resps : List (AnnotType × List Annot))
    (htype : ann.type = PDF_ANNOT_STRIKE_OUT ∨ ann.type = PDF_ANNOT_CARET)
    (hne : resps ≠ [])
    (hself : lookupGroup resps ann.type = none)
    (hcount : resps.length ≤ 2) :
    ((∃ o, isReplaceAnnot ann resps = .ok (true, o)) ↔
      (∃ m, lookupGroup resps
          (if ann.type = PDF_ANNOT_CARET then PDF_ANNOT_STRIKE_OUT else PDF_ANNOT_CARET) =
          some [m] ∧ ann.rect.intersects m.rect = true ∧ m.info.content = "")) ∧
    getCorrections c1doc = .ok [c1edit] := by
  refine ⟨?_, by decide⟩
  have hc1 : ¬ (¬ (ann.type = PDF_ANNOT_STRIKE_OUT ∨ ann.type = PDF_ANNOT_CARET) ∨
      resps = []) := by
    push_neg
    exact ⟨htype, hne⟩
  simp only [isReplaceAnnot]
  rw [if_neg hc1, hself]
  rw [if_neg (by simp), if_neg (not_not_intro hcount)]
  cases hg : lookupGroup resps
      (if ann.type = PDF_ANNOT_CARET then PDF_ANNOT_STRIKE_OUT else PDF_ANNOT_CARET) with
  | none => simp
  | some l0 =>
    cases l0 with
    | nil => simp
    | cons o rest =>
      by_cases hrest : rest = []
      · subst hrest
        simp [Bool.and_eq_true]
      · simp [hrest, Bool.and_eq_true]

theorem C1_replace_pair_classification_witness : getCorrections c1doc = .ok [c1edit] :=
  (C1_replace_pair_classification c1rootStable [(PDF_ANNOT_CARET, [c1caretStable])]
    (Or.inl (by decide)) (by decide) (by decide) (by decide)).2

/-- C7: segmentation aborts fatally when concatenating the verbatim form of every top-level
parsed node does not reproduce the original source byte-for-byte, and marking proceeds only
when the concatenation is exactly the source. -/
theorem C7_roundtrip_gate (tex_stem tex_str : String) (nodelist : List LatexNode)
    (enunciations : List String) :
    (joinVerbatim nodelist ≠ tex_str →
      segmentTex tex_stem tex_str nodelist enunciations = .error ROUNDTRIP_ERROR) ∧
    (joinVerbatim nodelist = tex_str →
      segmentTex tex_stem tex_str nodelist enunciations =
        segmentMarking tex_stem nodelist enunciations) := by
  constructor
  · intro hne
    simp only [segmentTex]
    rw [if_pos hne]
  · intro heq
    simp only [segmentTex]
    rw [if_neg (not_not_intro heq)]

theorem C7_roundtrip_gate_witness :
    segmentTex "t" "b" c7badNodes [] = .error ROUNDTRIP_ERROR ∧
    segmentTex "t" c7goodTex c7goodNodes [] = segmentMarking "t" c7goodNodes [] :=
  ⟨(C7_roundtrip_gate "t" "b" c7badNodes []).1 (by decide),
   (C7_roundtrip_gate "t" c7goodTex c7goodNodes []).2 rfl⟩

/-- C8: for a complete unit whose start/end pages agree and whose start/end vertical
coordinates agree, the converted-value width check is boundary-inclusive — the unit is kept
when `|x0 + width - x1|` equals the tolerance and dropped when it strictly exceeds it. -/
theorem C8_width_tolerance_boundary (key : String) (hbox start_xy end_xy : List String)
    (pgA pg : String) (w h d x0 sy x1 : ℚ)
    (hh : unzipHbox hbox = .ok (pgA, [w, h, d]))
    (hs : unzipPos start_xy = .ok (pg, [x0, sy]))
    (he : unzipPos end_xy = .ok (pg, [x1, sy])) :
    (|x0 + w - x1| = WORD_BOX_WIDTH_TOLERANCE →
      boxinfoToPDFRectangle key hbox start_xy end_xy =
        .ok (some (pg, ⟨x0, sy + h, x1, sy - d⟩))) ∧
    (WORD_BOX_WIDTH_TOLERANCE < |x0 + w - x1| →
      boxinfoToPDFRectangle key hbox start_xy end_xy = .ok none) := by
  constructor
  · intro heq
    simp only [boxinfoToPDFRectangle, hh, hs, he]
    rw [if_neg (fun hne => hne rfl), if_neg (fun hne => hne rfl),
        if_neg (by rw [heq]; exact lt_irrefl _)]
  · intro hlt
    simp only [boxinfoToPDFRectangle, hh, hs, he]
    rw [if_neg (fun hne => hne rfl), if_neg (fun hne => hne rfl), if_pos hlt]

set_option maxRecDepth 100000 in
theorem C8_width_tolerance_boundary_witness :
    boxinfoToPDFRectangle "3" c8hboxKeep c8start c8end =
      .ok (some ("1", ⟨0, 0 + 800 / 803, 0, 0 - 800 / 803⟩)) ∧
    boxinfoToPDFRectangle "3" c8hboxDrop c8start c8end = .ok none :=
  ⟨(C8_width_tolerance_boundary "3" c8hboxKeep c8start c8end "1" "1" 1 (800 / 803)
      (800 / 803) 0 0 0 (by with_unfolding_all decide) (by with_unfolding_all decide)
      (by with_unfolding_all decide)).1 (by with_unfolding_all decide),
   (C8_width_tolerance_boundary "3" c8hboxDrop c8start c8end "1" "1" 2 (800 / 803)
      (800 / 803) 0 0 0 (by with_unfolding_all decide) (by with_unfolding_all decide)
      (by with_unfolding_all decide)).2 (by with_unfolding_all decide)⟩

/-- C2 (code bug): the decoder's per-unit record-count check can never fire — Python's
`all(filter(lambda x: x == 3, lens))` is vacuously true for every input because the filter
keeps only the (truthy) value 3 — so an auxiliary log whose unit "3" lacks its end-position
record is not rejected with a count-mismatch error naming unit "3"; the run instead dies
later with a KeyError for the missing record kind.  A duplicate record kind is fatal as
specified. -/
theorem C2_count_check_unreachable :
    (∀ lens : List Nat, ((lens.filter fun n => n == 3).all fun n => n != 0) = true) ∧
    getWordBoxes c2lines 2 = .error "KeyError: 'epxy'" ∧
    getWordBoxes c2dupLines 2 =
      .error "Somehow label was already present; each label may appear at most once" := by
    refine ⟨?_, by decide, by decide⟩
    intro lens
    rw [List.all_eq_true]
    intro n hn
    have h3 : n = 3 := by simpa using (List.mem_filter.mp hn).2
    simp [h3]
